import Mathlib

/-!
Verification of the kubemark fleet-scale node simulator.

Part 1 embeds `pkg/kubemark/cm/container_manager_stub.go` (the resource
fabrication layer that is present in the repository).  Part 2 models, from
the specification, the Admission Ledger and the two per-agent timing loops
(Heartbeat, Status Sync), whose code is not among the repository files
available here.
-/

namespace Kubemark

/-- Resource quantities appearing in the stub container manager.  Every
quantity the stub builds comes either from
`resource.ParseQuantity(strconv.Itoa(n))` for a Go `int` `n` or from
`resource.NewQuantity(int64(0), resource.BinarySI)`, so each one is an exact
(signed) integer and is embedded as `Int`. -/
abbrev Quantity := Int

/-- `v1.ResourceList` is `map[v1.ResourceName]resource.Quantity`; the maps the
stub builds are literal maps with at most one key, embedded as association
lists from resource-name strings to quantities. -/
abbrev ResourceList := List (String × Quantity)

/-- Models the composition `resource.ParseQuantity(strconv.Itoa(n))` exactly
as `GetDevicePluginResourceCapacity` uses it, with the parse error discarded
as in the Go line `gpuNum, _ := resource.ParseQuantity(...)`.  These are
library functions (Go stdlib and k8s.io/apimachinery), not repository code:
`strconv.Itoa` renders `n` in canonical signed decimal form, the quantity
grammar accepts every such string and parses it back to exactly `n`, hence
the composition is the identity on integers and the discarded error is
always nil. -/
def parseQuantityItoa (n : Int) : Quantity := n

/-- Go error values: `nil` is `none`, a non-nil error carries a message. -/
abbrev GoError := Option String

/-- The struct `containerManagerStub` of `container_manager_stub.go`:
`shouldResetExtendedResourceCapacity bool` and `GpuNum int`. -/
structure ContainerManagerStub where
  shouldResetExtendedResourceCapacity : Bool
  GpuNum : Int
deriving DecidableEq, Repr

/-- `NewStubContainerManager(gpuNum int)`: returns
`&containerManagerStub{shouldResetExtendedResourceCapacity: false, GpuNum: gpuNum}`.
The Go function is total: it performs no validation and has no error return
value. -/
def NewStubContainerManager (gpuNum : Int) : ContainerManagerStub :=
  { shouldResetExtendedResourceCapacity := false, GpuNum := gpuNum }

/-- `NewStubContainerManagerWithExtendedResource`: sets the boolean field;
`GpuNum` is left at the Go zero value 0. -/
def NewStubContainerManagerWithExtendedResource
    (shouldResetExtendedResourceCapacity : Bool) : ContainerManagerStub :=
  { shouldResetExtendedResourceCapacity := shouldResetExtendedResourceCapacity,
    GpuNum := 0 }

/-- Methods take a pointer receiver; none of the method bodies in the file
assigns to a receiver field, so each method is embedded as a pure function
returning its result together with the (unchanged, per the source) receiver
state. `GetDevicePluginResourceCapacity` builds two one-key maps under
`"nvidia.com/gpu"` from `ParseQuantity(Itoa(cm.GpuNum))` and returns them
with an empty removed-resources slice `[]string{}`. -/
def GetDevicePluginResourceCapacity (cm : ContainerManagerStub) :
    (ResourceList × ResourceList × List String) × ContainerManagerStub :=
  let gpuNum := parseQuantityItoa cm.GpuNum
  let devicesCapacity : ResourceList := [("nvidia.com/gpu", gpuNum)]
  let devicesAllocatable : ResourceList := [("nvidia.com/gpu", gpuNum)]
  ((devicesCapacity, devicesAllocatable, []), cm)

/-- `GetCapacity`: returns the literal map
`{v1.ResourceEphemeralStorage: *resource.NewQuantity(int64(0), resource.BinarySI)}`;
`v1.ResourceEphemeralStorage` is the resource name `"ephemeral-storage"`. -/
def GetCapacity (cm : ContainerManagerStub) : ResourceList × ContainerManagerStub :=
  ([("ephemeral-storage", 0)], cm)

/-- `ShouldResetExtendedResourceCapacity`: returns the boolean field. -/
def ShouldResetExtendedResourceCapacity (cm : ContainerManagerStub) :
    Bool × ContainerManagerStub :=
  (cm.shouldResetExtendedResourceCapacity, cm)

/-- `Start`: logs and returns `nil`; all arguments are ignored (`_`). -/
def Start (cm : ContainerManagerStub) : GoError × ContainerManagerStub :=
  (none, cm)

/-- `UpdateQOSCgroups`: returns `nil`. -/
def UpdateQOSCgroups (cm : ContainerManagerStub) : GoError × ContainerManagerStub :=
  (none, cm)

/-- `UpdatePluginResources`: ignores both arguments and returns `nil`. -/
def UpdatePluginResources (cm : ContainerManagerStub) : GoError × ContainerManagerStub :=
  (none, cm)

/-- The fields of `kubecontainer.RunContainerOptions` relevant to the stub:
`GetResources` returns the zero-valued struct `&RunContainerOptions{}`, so
every field holds its Go zero value (empty slices / empty strings / false). -/
structure RunContainerOptions where
  Envs : List (String × String) := []
  Mounts : List String := []
  Devices : List String := []
  Annotations : List (String × String) := []
  PodContainerDir : String := ""
  ReadOnly : Bool := false
deriving DecidableEq, Repr

/-- The zero-valued `RunContainerOptions{}`. -/
def emptyRunContainerOptions : RunContainerOptions := {}

/-- `GetResources(pod, container)`: returns `(&RunContainerOptions{}, nil)`
for every pod and container (both arguments are unused; they are embedded as
opaque identifiers). -/
def GetResources (cm : ContainerManagerStub) (_pod _container : String) :
    (RunContainerOptions × GoError) × ContainerManagerStub :=
  ((emptyRunContainerOptions, none), cm)

end Kubemark

namespace Kubemark

/-- Modelled from the spec: the Admission Ledger component is not among the
repository files available here; this section follows §3 "Admission Record"
and §4.2 "Admission Ledger" of the specification.  A workload-placement
request carries a workload ID and requested CPU (millis), memory (bytes) and
GPU (count). -/
structure AdmissionRequest where
  workloadID : String
  requestedCPU : Nat
  requestedMemory : Nat
  requestedGPU : Nat
deriving DecidableEq, Repr

/-- Modelled from the spec: the agent's allocatable amounts for the three
tracked resource dimensions (CPU, memory, GPU). -/
structure Allocatable where
  cpuMillis : Nat
  memoryBytes : Nat
  gpuCount : Nat
deriving DecidableEq, Repr

/-- Modelled from the spec: the tracked resource dimensions, in the order the
spec lists them (CPU, memory, GPU); a rejection reason identifies one. -/
inductive Dimension where
  | cpu
  | memory
  | gpu
deriving DecidableEq, Repr

/-- Modelled from the spec: the outcome of a placement request,
`{Admitted, Rejected(reason)}`, the reason naming the exhausted dimension. -/
inductive Decision where
  | Admitted
  | Rejected (reason : Dimension)
deriving DecidableEq, Repr

/-- Modelled from the spec: one agent's Admission Ledger — its allocatable
plus the live admission records (append/remove only). -/
structure Ledger where
  alloc : Allocatable
  live : List AdmissionRequest
deriving DecidableEq, Repr

/-- Sum of requested CPU millis over a list of live records. -/
def usedCPU (l : List AdmissionRequest) : Nat :=
  (l.map (fun r => r.requestedCPU)).sum

/-- Sum of requested memory bytes over a list of live records. -/
def usedMemory (l : List AdmissionRequest) : Nat :=
  (l.map (fun r => r.requestedMemory)).sum

/-- Sum of requested GPU count over a list of live records. -/
def usedGPU (l : List AdmissionRequest) : Nat :=
  (l.map (fun r => r.requestedGPU)).sum

/-- Modelled from the spec: `TryAdmit(request)` checks remaining allocatable
headroom across all tracked dimensions against the live records; it admits
and records iff every dimension has sufficient headroom, otherwise rejects
with the first exhausted dimension (checked in the order CPU, memory, GPU)
and leaves the ledger unchanged (no side effect on rejection). -/
def tryAdmit (L : Ledger) (r : AdmissionRequest) : Decision × Ledger :=
  if L.alloc.cpuMillis < usedCPU L.live + r.requestedCPU then
    (Decision.Rejected Dimension.cpu, L)
  else if L.alloc.memoryBytes < usedMemory L.live + r.requestedMemory then
    (Decision.Rejected Dimension.memory, L)
  else if L.alloc.gpuCount < usedGPU L.live + r.requestedGPU then
    (Decision.Rejected Dimension.gpu, L)
  else
    (Decision.Admitted, { L with live := r :: L.live })

/-- Modelled from the spec: `Release(workloadID)` removes every live record
with that workload ID; removing an unknown ID is a no-op, not an error (the
operation has no error outcome at all). -/
def release (L : Ledger) (id : String) : Ledger :=
  { L with live := L.live.filter (fun r => r.workloadID != id) }

/-- The ledger operations an external collaborator can drive: a placement
submission or a release signal. -/
inductive LedgerOp where
  | submit (r : AdmissionRequest)
  | rel (id : String)

/-- Applying one operation to a ledger (a rejected submission leaves the
ledger unchanged, by the definition of `tryAdmit`). -/
def applyOp (L : Ledger) : LedgerOp → Ledger
  | LedgerOp.submit r => (tryAdmit L r).2
  | LedgerOp.rel id => release L id

/-- Running a whole sequence of operations from a starting ledger. -/
def runOps (L : Ledger) (ops : List LedgerOp) : Ledger :=
  ops.foldl applyOp L

/-- A fresh ledger for an agent: its allocatable and no live records. -/
def emptyLedger (a : Allocatable) : Ledger :=
  { alloc := a, live := [] }

/-- The ledger invariant: on every tracked dimension, the sum of requested
resources over the live records is at most the agent's allocatable. -/
def ledgerWF (L : Ledger) : Prop :=
  usedCPU L.live ≤ L.alloc.cpuMillis ∧
  usedMemory L.live ≤ L.alloc.memoryBytes ∧
  usedGPU L.live ≤ L.alloc.gpuCount

/-- Modelled from the spec: configuration of the Status Sync Loop (§4.4),
whose code is not among the repository files available here: `F` is the
minimum update frequency (the tick interval) and `M ≥ F` the maximum report
interval, both in the same time unit. -/
structure SyncConfig where
  F : Nat
  M : Nat
deriving DecidableEq, Repr

/-- Modelled from the spec: the Status Sync Loop state — the current time,
the time of the last successful publish, and the condition value of the last
published snapshot (conditions abstracted to one boolean, the only part of a
snapshot that can change between ticks since capacity and allocatable are
fixed). -/
structure SyncState where
  now : Nat
  lastSuccessTime : Nat
  lastPublished : Bool
deriving DecidableEq, Repr

/-- Modelled from the spec: one tick of the Status Sync Loop (§4.4).  Time
advances by `F`; the snapshot is recomputed (its condition value is `cond`);
the loop publishes iff the condition differs from the last published
snapshot or the time since the last successful publish is at least `M`;
`ok` says whether the control plane accepted the publish.  A failed publish
leaves `lastSuccessTime` untouched — it never resets the
time-since-last-successful-publish clock — and is retried on the next tick
by the same rule.  Returns the new state and whether a successful publish
happened this tick. -/
def syncTick (cfg : SyncConfig) (s : SyncState) (cond ok : Bool) :
    SyncState × Bool :=
  let t := s.now + cfg.F
  if cond != s.lastPublished || cfg.M ≤ t - s.lastSuccessTime then
    if ok then
      ({ now := t, lastSuccessTime := t, lastPublished := cond }, true)
    else
      ({ s with now := t }, false)
  else
    ({ s with now := t }, false)

/-- Running the Status Sync Loop over a list of per-tick inputs
`(cond, ok)`. -/
def runSync (cfg : SyncConfig) (s : SyncState) (ticks : List (Bool × Bool)) :
    SyncState :=
  ticks.foldl (fun st i => (syncTick cfg st i.1 i.2).1) s

/-- The Status Sync Loop invariant: the time since the last successful
publish is below the maximum report interval. -/
def syncInv (cfg : SyncConfig) (s : SyncState) : Prop :=
  s.now - s.lastSuccessTime < cfg.M

/-- Modelled from the spec: the Heartbeat Loop state (§4.3) — the start time
of the last renewal attempt, the consecutive-failure counter, and the
locally cached timestamp of the last successful renewal. -/
structure HeartbeatState where
  lastAttemptStart : Nat
  failures : Nat
  lastRenewal : Option Nat
deriving DecidableEq, Repr

/-- Modelled from the spec: one cycle of the Heartbeat Loop (§4.3) with
fixed period `P`.  The next tick is computed from the last attempt start
time plus `P` — not from the last success — so the intended cadence never
drifts; on success the failure counter resets and the renewal timestamp is
recorded, on failure the counter increments. -/
def heartbeatTick (P : Nat) (s : HeartbeatState) (ok : Bool) : HeartbeatState :=
  let t := s.lastAttemptStart + P
  if ok then
    { lastAttemptStart := t, failures := 0, lastRenewal := some t }
  else
    { lastAttemptStart := t, failures := s.failures + 1,
      lastRenewal := s.lastRenewal }

/-- Running the Heartbeat Loop over a list of per-cycle renewal outcomes. -/
def runHeartbeat (P : Nat) (s : HeartbeatState) (oks : List Bool) :
    HeartbeatState :=
  oks.foldl (heartbeatTick P) s

theorem usedCPU_cons (r : AdmissionRequest) (l : List AdmissionRequest) :
    usedCPU (r :: l) = r.requestedCPU + usedCPU l := by
  simp [usedCPU]

theorem usedMemory_cons (r : AdmissionRequest) (l : List AdmissionRequest) :
    usedMemory (r :: l) = r.requestedMemory + usedMemory l := by
  simp [usedMemory]

theorem usedGPU_cons (r : AdmissionRequest) (l : List AdmissionRequest) :
    usedGPU (r :: l) = r.requestedGPU + usedGPU l := by
  simp [usedGPU]

theorem usedCPU_filter_le (p : AdmissionRequest → Bool) (l : List AdmissionRequest) :
    usedCPU (l.filter p) ≤ usedCPU l := by
  induction l with
  | nil => simp [usedCPU]
  | cons a l ih =>
      by_cases h : p a = true
      · simpa [List.filter, h, usedCPU_cons] using
          Nat.add_le_add_left ih a.requestedCPU
      · simp only [List.filter, h]
        exact le_trans ih (by simp [usedCPU_cons])

theorem usedMemory_filter_le (p : AdmissionRequest → Bool) (l : List AdmissionRequest) :
    usedMemory (l.filter p) ≤ usedMemory l := by
  induction l with
  | nil => simp [usedMemory]
  | cons a l ih =>
      by_cases h : p a = true
      · simpa [List.filter, h, usedMemory_cons] using
          Nat.add_le_add_left ih a.requestedMemory
      · simp only [List.filter, h]
        exact le_trans ih (by simp [usedMemory_cons])

theorem usedGPU_filter_le (p : AdmissionRequest → Bool) (l : List AdmissionRequest) :
    usedGPU (l.filter p) ≤ usedGPU l := by
  induction l with
  | nil => simp [usedGPU]
  | cons a l ih =>
      by_cases h : p a = true
      · simpa [List.filter, h, usedGPU_cons] using
          Nat.add_le_add_left ih a.requestedGPU
      · simp only [List.filter, h]
        exact le_trans ih (by simp [usedGPU_cons])

theorem ledgerWF_tryAdmit (L : Ledger) (r : AdmissionRequest) (h : ledgerWF L) :
    ledgerWF (tryAdmit L r).2 := by
  unfold tryAdmit
  split
  · exact h
  · split
    · exact h
    · split
      · exact h
      · rename_i h1 h2 h3
        refine ⟨?_, ?_, ?_⟩
        · simpa [usedCPU_cons, Nat.add_comm] using Nat.le_of_not_lt h1
        · simpa [usedMemory_cons, Nat.add_comm] using Nat.le_of_not_lt h2
        · simpa [usedGPU_cons, Nat.add_comm] using Nat.le_of_not_lt h3

theorem ledgerWF_release (L : Ledger) (id : String) (h : ledgerWF L) :
    ledgerWF (release L id) := by
  obtain ⟨h1, h2, h3⟩ := h
  refine ⟨?_, ?_, ?_⟩
  · exact le_trans (usedCPU_filter_le _ _) h1
  · exact le_trans (usedMemory_filter_le _ _) h2
  · exact le_trans (usedGPU_filter_le _ _) h3

theorem ledgerWF_runOps (ops : List LedgerOp) (L : Ledger) (h : ledgerWF L) :
    ledgerWF (runOps L ops) := by
  induction ops generalizing L with
  | nil => exact h
  | cons op ops ih =>
      cases op with
      | submit r => exact ih _ (ledgerWF_tryAdmit L r h)
      | rel id => exact ih _ (ledgerWF_release L id h)

theorem tryAdmit_cases (L : Ledger) (r : AdmissionRequest) :
    tryAdmit L r = (Decision.Admitted, { alloc := L.alloc, live := r :: L.live }) ∨
    ∃ d, tryAdmit L r = (Decision.Rejected d, L) := by
  unfold tryAdmit
  split
  · exact Or.inr ⟨Dimension.cpu, rfl⟩
  · split
    · exact Or.inr ⟨Dimension.memory, rfl⟩
    · split
      · exact Or.inr ⟨Dimension.gpu, rfl⟩
      · exact Or.inl rfl

theorem tryAdmit_of_fits (L : Ledger) (r : AdmissionRequest)
    (h1 : usedCPU L.live + r.requestedCPU ≤ L.alloc.cpuMillis)
    (h2 : usedMemory L.live + r.requestedMemory ≤ L.alloc.memoryBytes)
    (h3 : usedGPU L.live + r.requestedGPU ≤ L.alloc.gpuCount) :
    tryAdmit L r = (Decision.Admitted, { alloc := L.alloc, live := r :: L.live }) := by
  unfold tryAdmit
  rw [if_neg (Nat.not_lt.mpr h1), if_neg (Nat.not_lt.mpr h2),
    if_neg (Nat.not_lt.mpr h3)]

theorem tryAdmit_cpu_exhausted (L : Ledger) (r : AdmissionRequest)
    (h1 : L.alloc.cpuMillis < usedCPU L.live + r.requestedCPU) :
    tryAdmit L r = (Decision.Rejected Dimension.cpu, L) := by
  unfold tryAdmit
  rw [if_pos h1]

theorem tryAdmit_memory_exhausted (L : Ledger) (r : AdmissionRequest)
    (h1 : ¬ L.alloc.cpuMillis < usedCPU L.live + r.requestedCPU)
    (h2 : L.alloc.memoryBytes < usedMemory L.live + r.requestedMemory) :
    tryAdmit L r = (Decision.Rejected Dimension.memory, L) := by
  unfold tryAdmit
  rw [if_neg h1, if_pos h2]

theorem tryAdmit_gpu_exhausted (L : Ledger) (r : AdmissionRequest)
    (h1 : ¬ L.alloc.cpuMillis < usedCPU L.live + r.requestedCPU)
    (h2 : ¬ L.alloc.memoryBytes < usedMemory L.live + r.requestedMemory)
    (h3 : L.alloc.gpuCount < usedGPU L.live + r.requestedGPU) :
    tryAdmit L r = (Decision.Rejected Dimension.gpu, L) := by
  unfold tryAdmit
  rw [if_neg h1, if_neg h2, if_pos h3]

theorem tryAdmit_fst_admitted_iff (L : Ledger) (r : AdmissionRequest) :
    (tryAdmit L r).1 = Decision.Admitted ↔
      (usedCPU L.live + r.requestedCPU ≤ L.alloc.cpuMillis ∧
       usedMemory L.live + r.requestedMemory ≤ L.alloc.memoryBytes ∧
       usedGPU L.live + r.requestedGPU ≤ L.alloc.gpuCount) := by
  constructor
  · intro h
    by_cases h1 : L.alloc.cpuMillis < usedCPU L.live + r.requestedCPU
    · rw [tryAdmit_cpu_exhausted L r h1] at h
      exact absurd h (by simp)
    by_cases h2 : L.alloc.memoryBytes < usedMemory L.live + r.requestedMemory
    · rw [tryAdmit_memory_exhausted L r h1 h2] at h
      exact absurd h (by simp)
    by_cases h3 : L.alloc.gpuCount < usedGPU L.live + r.requestedGPU
    · rw [tryAdmit_gpu_exhausted L r h1 h2 h3] at h
      exact absurd h (by simp)
    exact ⟨Nat.not_lt.mp h1, Nat.not_lt.mp h2, Nat.not_lt.mp h3⟩
  · intro h
    rw [tryAdmit_of_fits L r h.1 h.2.1 h.2.2]

theorem tryAdmit_admitted_frame (L : Ledger) (r : AdmissionRequest)
    (h : (tryAdmit L r).1 = Decision.Admitted) :
    (tryAdmit L r).2 = { alloc := L.alloc, live := r :: L.live } := by
  rcases tryAdmit_cases L r with hc | ⟨d, hc⟩
  · rw [hc]
  · rw [hc] at h
    exact absurd h (by simp)

theorem tryAdmit_rejected_frame (L : Ledger) (r : AdmissionRequest) (d : Dimension)
    (h : (tryAdmit L r).1 = Decision.Rejected d) :
    (tryAdmit L r).2 = L := by
  rcases tryAdmit_cases L r with hc | ⟨e, hc⟩
  · rw [hc] at h
    exact absurd h (by simp)
  · rw [hc]

theorem syncTick_inv (cfg : SyncConfig) (s : SyncState) (cond : Bool)
    (hM : 0 < cfg.M) :
    syncInv cfg (syncTick cfg s cond true).1 := by
  by_cases hg : (cond != s.lastPublished ||
      decide (cfg.M ≤ s.now + cfg.F - s.lastSuccessTime)) = true
  · simp [syncInv, syncTick, hg]
    omega
  · rw [Bool.not_eq_true] at hg
    have hg2 : ¬ cfg.M ≤ s.now + cfg.F - s.lastSuccessTime := by
      intro hle
      simp [hle] at hg
    simp [syncInv, syncTick, hg]
    omega

theorem syncTick_gap (cfg : SyncConfig) (s : SyncState) (cond : Bool)
    (hs : syncInv cfg s) (h : (syncTick cfg s cond true).2 = true) :
    (syncTick cfg s cond true).1.now - s.lastSuccessTime ≤ cfg.M + cfg.F := by
  by_cases hg : (cond != s.lastPublished ||
      decide (cfg.M ≤ s.now + cfg.F - s.lastSuccessTime)) = true
  · simp [syncTick, hg]
    simp [syncInv] at hs
    omega
  · rw [Bool.not_eq_true] at hg
    simp [syncTick, hg] at h

theorem syncTick_no_reset (cfg : SyncConfig) (s : SyncState) (cond ok : Bool)
    (h : (syncTick cfg s cond ok).2 = false) :
    (syncTick cfg s cond ok).1.lastSuccessTime = s.lastSuccessTime := by
  by_cases hg : (cond != s.lastPublished ||
      decide (cfg.M ≤ s.now + cfg.F - s.lastSuccessTime)) = true
  · cases ok
    · simp [syncTick, hg]
    · simp [syncTick, hg] at h
  · rw [Bool.not_eq_true] at hg
    simp [syncTick, hg]

theorem syncInv_runSync_ok (cfg : SyncConfig) (hM : 0 < cfg.M)
    (conds : List Bool) (s : SyncState) (hs : syncInv cfg s) :
    syncInv cfg (runSync cfg s (conds.map fun c => (c, true))) := by
  induction conds generalizing s with
  | nil => exact hs
  | cons c conds ih => exact ih _ (syncTick_inv cfg s c hM)

theorem heartbeatTick_start (P : Nat) (s : HeartbeatState) (ok : Bool) :
    (heartbeatTick P s ok).lastAttemptStart = s.lastAttemptStart + P := by
  cases ok <;> simp [heartbeatTick]

theorem runHeartbeat_start (P : Nat) (s : HeartbeatState) (oks : List Bool) :
    (runHeartbeat P s oks).lastAttemptStart =
      s.lastAttemptStart + oks.length * P := by
  induction oks generalizing s with
  | nil => simp [runHeartbeat]
  | cons ok oks ih =>
      have hstep : runHeartbeat P s (ok :: oks) =
          runHeartbeat P (heartbeatTick P s ok) oks := rfl
      rw [hstep, ih, heartbeatTick_start]
      simp only [List.length_cons]
      ring

/-- Claim C1: for every `gpuNum`, the manager built by
`NewStubContainerManager gpuNum` answers `GetDevicePluginResourceCapacity`
with a devices-capacity list and a devices-allocatable list that are equal,
each mapping the single resource name `"nvidia.com/gpu"` to the quantity
`gpuNum`, together with an empty removed-resources slice. -/
theorem stub_devicePluginCapacity_eq_allocatable (gpuNum : Int) :
    ((GetDevicePluginResourceCapacity (NewStubContainerManager gpuNum)).1).1 =
      [("nvidia.com/gpu", gpuNum)] ∧
    ((GetDevicePluginResourceCapacity (NewStubContainerManager gpuNum)).1).2.1 =
      ((GetDevicePluginResourceCapacity (NewStubContainerManager gpuNum)).1).1 ∧
    ((GetDevicePluginResourceCapacity (NewStubContainerManager gpuNum)).1).2.2 =
      ([] : List String) := by
  refine ⟨rfl, rfl, rfl⟩

/-- Claim C2, counterexample: at the concrete negative input `-1`,
`NewStubContainerManager` does not report an error — it produces a manager
(the Go constructor has no error return and performs no validation), its
`Start` returns a nil error, and the negative quantity flows through to the
fabricated device capacity. -/
theorem stub_negative_gpu_produces_manager :
    NewStubContainerManager (-1) =
      { shouldResetExtendedResourceCapacity := false, GpuNum := -1 } ∧
    (Start (NewStubContainerManager (-1))).1 = none ∧
    ((GetDevicePluginResourceCapacity (NewStubContainerManager (-1))).1).1 =
      [("nvidia.com/gpu", -1)] := by
  refine ⟨rfl, rfl, rfl⟩

/-- Claim C2, amended: construction never fails.  For every `gpuNum`,
including every negative value, `NewStubContainerManager gpuNum` produces a
manager (no error is reported anywhere: the constructor has no error channel
and `Start` returns nil), and the unvalidated value is passed through to the
fabricated GPU capacity. -/
theorem stub_construction_never_fails (gpuNum : Int) :
    NewStubContainerManager gpuNum =
      { shouldResetExtendedResourceCapacity := false, GpuNum := gpuNum } ∧
    (Start (NewStubContainerManager gpuNum)).1 = none ∧
    ((GetDevicePluginResourceCapacity (NewStubContainerManager gpuNum)).1).1 =
      [("nvidia.com/gpu", gpuNum)] := by
  refine ⟨rfl, rfl, rfl⟩

/-- Claim C8: the configuration is read-only after construction.  Every
accessor leaves all fields of the manager unchanged (the returned receiver
state equals the input state), and consequently two calls to the same
accessor on the same manager return equal results. -/
theorem stub_accessors_frame (cm : ContainerManagerStub) :
    (GetDevicePluginResourceCapacity cm).2 = cm ∧
    (GetCapacity cm).2 = cm ∧
    (ShouldResetExtendedResourceCapacity cm).2 = cm ∧
    (GetDevicePluginResourceCapacity ((GetDevicePluginResourceCapacity cm).2)).1 =
      (GetDevicePluginResourceCapacity cm).1 ∧
    (GetCapacity ((GetCapacity cm).2)).1 = (GetCapacity cm).1 ∧
    (ShouldResetExtendedResourceCapacity ((ShouldResetExtendedResourceCapacity cm).2)).1 =
      (ShouldResetExtendedResourceCapacity cm).1 := by
  refine ⟨rfl, rfl, rfl, rfl, rfl, rfl⟩

/-- Claim C9: for every stub container manager, whatever its configured
`GpuNum` or boolean flag, `GetCapacity` returns exactly the one-entry list
mapping `"ephemeral-storage"` to quantity `0`; no CPU, memory or GPU entry
appears. -/
theorem stub_getCapacity_ephemeral_only (cm : ContainerManagerStub) :
    (GetCapacity cm).1 = [("ephemeral-storage", 0)] := rfl

/-- Claim C3: for every sequence of placement and release operations run from
a fresh ledger, at every point in the sequence (every prefix length `k`) and
on every tracked dimension (CPU, memory, GPU), the sum of requested
resources over the live records is at most the agent's allocatable for that
dimension; and a request that would violate the bound is rejected with the
ledger left exactly as it was — never partially admitted. -/
theorem ledger_invariant_every_point (a : Allocatable) (ops : List LedgerOp)
    (k : Nat) :
    ledgerWF (runOps (emptyLedger a) (List.take k ops)) ∧
    (∀ L r d, (tryAdmit L r).1 = Decision.Rejected d → (tryAdmit L r).2 = L) := by
  constructor
  · refine ledgerWF_runOps _ _ ?_
    refine ⟨?_, ?_, ?_⟩ <;> simp [emptyLedger, usedCPU, usedMemory, usedGPU]
  · intro L r d h
    exact tryAdmit_rejected_frame L r d h

/-- Claim C4: `TryAdmit` admits and records the request iff every tracked
dimension has sufficient remaining headroom against the live records; an
admitted request is recorded, a rejection leaves the ledger unchanged, and
the rejection reason identifies the first exhausted dimension in the checked
order CPU, memory, GPU: a CPU shortfall is reported as the CPU reason, a
memory shortfall with CPU fitting as the memory reason, and a GPU shortfall
with CPU and memory fitting as the GPU reason.  Concretely: with allocatable
cpu=1000 millis and memory=4Gi, admitting {cpu:500, mem:1Gi} succeeds and a
subsequent {cpu:600, mem:1Gi} is rejected with the CPU reason. -/
theorem tryAdmit_iff_headroom (L : Ledger) (r : AdmissionRequest) :
    ((tryAdmit L r).1 = Decision.Admitted ↔
      (usedCPU L.live + r.requestedCPU ≤ L.alloc.cpuMillis ∧
       usedMemory L.live + r.requestedMemory ≤ L.alloc.memoryBytes ∧
       usedGPU L.live + r.requestedGPU ≤ L.alloc.gpuCount)) ∧
    ((tryAdmit L r).1 = Decision.Admitted →
      (tryAdmit L r).2 = { alloc := L.alloc, live := r :: L.live }) ∧
    (∀ d, (tryAdmit L r).1 = Decision.Rejected d → (tryAdmit L r).2 = L) ∧
    (L.alloc.cpuMillis < usedCPU L.live + r.requestedCPU →
      (tryAdmit L r).1 = Decision.Rejected Dimension.cpu) ∧
    (¬ L.alloc.cpuMillis < usedCPU L.live + r.requestedCPU →
      L.alloc.memoryBytes < usedMemory L.live + r.requestedMemory →
      (tryAdmit L r).1 = Decision.Rejected Dimension.memory) ∧
    (¬ L.alloc.cpuMillis < usedCPU L.live + r.requestedCPU →
      ¬ L.alloc.memoryBytes < usedMemory L.live + r.requestedMemory →
      L.alloc.gpuCount < usedGPU L.live + r.requestedGPU →
      (tryAdmit L r).1 = Decision.Rejected Dimension.gpu) ∧
    (tryAdmit (emptyLedger ⟨1000, 4294967296, 0⟩)
      ⟨"w1", 500, 1073741824, 0⟩).1 = Decision.Admitted ∧
    (tryAdmit
      (tryAdmit (emptyLedger ⟨1000, 4294967296, 0⟩)
        ⟨"w1", 500, 1073741824, 0⟩).2
      ⟨"w2", 600, 1073741824, 0⟩).1 = Decision.Rejected Dimension.cpu := by
  refine ⟨tryAdmit_fst_admitted_iff L r, ?_, ?_, ?_, ?_, ?_, by decide, by decide⟩
  · exact tryAdmit_admitted_frame L r
  · exact fun d h => tryAdmit_rejected_frame L r d h
  · intro h1
    rw [tryAdmit_cpu_exhausted L r h1]
  · intro h1 h2
    rw [tryAdmit_memory_exhausted L r h1 h2]
  · intro h1 h2 h3
    rw [tryAdmit_gpu_exhausted L r h1 h2 h3]

/-- Claim C5: `Release` is idempotent — on every ledger state and workload
ID, releasing twice equals releasing once — and releasing an ID with no live
record is a no-op (the ledger is left exactly as it was; `release` has no
error outcome at all, so nothing is signalled). -/
theorem release_idempotent_unknown_noop (L : Ledger) (id : String) :
    release (release L id) id = release L id ∧
    ((∀ r ∈ L.live, r.workloadID ≠ id) → release L id = L) := by
  constructor
  · simp [release, List.filter_filter]
  · intro h
    have hf : L.live.filter (fun r => r.workloadID != id) = L.live :=
      List.filter_eq_self.mpr (fun a ha => by simpa using h a ha)
    simp [release, hf]

/-- Claim C5, witness: on a concrete ledger holding one record for `"w"`,
releasing `"w"` twice equals releasing it once, and releasing the unknown ID
`"x"` leaves the ledger exactly as it was. -/
theorem release_idempotent_unknown_noop_witness :
    (release (release (Ledger.mk ⟨10, 10, 0⟩ [⟨"w", 1, 1, 0⟩]) "w") "w" =
      release (Ledger.mk ⟨10, 10, 0⟩ [⟨"w", 1, 1, 0⟩]) "w") ∧
    (release (Ledger.mk ⟨10, 10, 0⟩ [⟨"w", 1, 1, 0⟩]) "x" =
      Ledger.mk ⟨10, 10, 0⟩ [⟨"w", 1, 1, 0⟩]) :=
  ⟨(release_idempotent_unknown_noop
      (Ledger.mk ⟨10, 10, 0⟩ [⟨"w", 1, 1, 0⟩]) "w").1,
   (release_idempotent_unknown_noop
      (Ledger.mk ⟨10, 10, 0⟩ [⟨"w", 1, 1, 0⟩]) "x").2 (by decide)⟩

/-- Claim C6, counterexample: the staleness bound does not hold in every
execution.  With tick interval `F = 5` and maximum report interval `M = 6`,
starting right after a successful publish at time 0, an execution in which
the forced publish at time 10 fails has its next successful publish only at
time 15: the two consecutive successful publishes are 15 apart, exceeding
`M` plus one tick interval (11). -/
theorem syncLoop_staleness_counterexample :
    (syncTick ⟨5, 6⟩ ⟨0, 0, false⟩ false true).2 = false ∧
    (syncTick ⟨5, 6⟩ (syncTick ⟨5, 6⟩ ⟨0, 0, false⟩ false true).1
        false false).2 = false ∧
    (syncTick ⟨5, 6⟩ (syncTick ⟨5, 6⟩ (syncTick ⟨5, 6⟩ ⟨0, 0, false⟩
        false true).1 false false).1 false true).2 = true ∧
    (syncTick ⟨5, 6⟩ (syncTick ⟨5, 6⟩ (syncTick ⟨5, 6⟩ ⟨0, 0, false⟩
        false true).1 false false).1 false true).1.lastSuccessTime = 15 ∧
    15 > 6 + 5 := by
  refine ⟨rfl, rfl, rfl, rfl, by decide⟩

/-- Claim C6, amended: when no publish attempt fails, the time between two
consecutive successful publishes never exceeds the maximum report interval
`M` plus one tick interval `F` (the time since the last successful publish
stays below `M` at every tick, whatever the observed condition values); and
in every execution, a tick without a successful publish — in particular a
failed publish — never resets the time-since-last-successful-publish
clock. -/
theorem syncLoop_staleness_bound (cfg : SyncConfig) (s : SyncState)
    (hM : 0 < cfg.M) (hs : s.now - s.lastSuccessTime < cfg.M) :
    (∀ cond : Bool, (syncTick cfg s cond true).2 = true →
      (syncTick cfg s cond true).1.now - s.lastSuccessTime ≤ cfg.M + cfg.F) ∧
    (∀ conds : List Bool,
      (runSync cfg s (conds.map fun c => (c, true))).now -
        (runSync cfg s (conds.map fun c => (c, true))).lastSuccessTime <
          cfg.M) ∧
    (∀ cond ok : Bool, (syncTick cfg s cond ok).2 = false →
      (syncTick cfg s cond ok).1.lastSuccessTime = s.lastSuccessTime) := by
  refine ⟨?_, ?_, ?_⟩
  · exact fun cond h => syncTick_gap cfg s cond hs h
  · exact fun conds => syncInv_runSync_ok cfg hM conds s hs
  · exact fun cond ok h => syncTick_no_reset cfg s cond ok h

/-- Claim C6, amended, witness: with `F = 5`, `M = 6` and a state freshly
published at time 0, after the two all-success ticks `[false, true]` the
time since the last successful publish is below `M`. -/
theorem syncLoop_staleness_bound_witness :
    (runSync ⟨5, 6⟩ ⟨0, 0, false⟩ ([false, true].map fun c => (c, true))).now -
      (runSync ⟨5, 6⟩ ⟨0, 0, false⟩
        ([false, true].map fun c => (c, true))).lastSuccessTime < (6 : Nat) :=
  (syncLoop_staleness_bound ⟨5, 6⟩ ⟨0, 0, false⟩ (by decide)
    (by decide)).2.1 [false, true]

/-- Claim C7: the heartbeat cadence has no drift.  Each next tick is the
last attempt start time plus the fixed period `P`, so after any number of
cycles — whatever mix of successes and failures, and in particular under no
failures — the last attempt start time is exactly the initial start time
plus (number of cycles) × `P`, and the next attempt is spaced exactly `P`
after the previous one. -/
theorem heartbeat_no_drift (P : Nat) (s : HeartbeatState) (oks : List Bool)
    (ok : Bool) :
    (runHeartbeat P s oks).lastAttemptStart =
      s.lastAttemptStart + oks.length * P ∧
    (heartbeatTick P (runHeartbeat P s oks) ok).lastAttemptStart =
      (runHeartbeat P s oks).lastAttemptStart + P := by
  refine ⟨runHeartbeat_start P s oks, heartbeatTick_start P _ ok⟩

/-- Claim C10: the stub never fails.  For every manager, pod and container,
`Start`, `UpdateQOSCgroups`, `UpdatePluginResources` and `GetResources`
return a nil error, and `GetResources` returns the empty
`RunContainerOptions`. -/
theorem stub_operations_never_error (cm : ContainerManagerStub)
    (pod container : String) :
    (Start cm).1 = none ∧
    (UpdateQOSCgroups cm).1 = none ∧
    (UpdatePluginResources cm).1 = none ∧
    ((GetResources cm pod container).1).2 = none ∧
    ((GetResources cm pod container).1).1 = emptyRunContainerOptions := by
  refine ⟨rfl, rfl, rfl, rfl, rfl⟩

end Kubemark
